import Mathlib

/-!
Verification development for the RtpCpp RTP packet codec.

The definitions below are a shallow embedding of the templated class
`RtpCpp::RtpPacket<B>` from `src/include/RtpPacket.hpp` (the most complete
variant in the repository, the one every claim cites).  C++ `std::size_t`
arithmetic is modelled on `Nat` with explicit reduction modulo `2^64`
(`add64` / `sub64`); bytes are `Nat` values reduced modulo `256` on every
read (`byteAt`) and write (`setByte`).  The template capability
`ResizableContiguousBuffer<B>` is modelled by the boolean field `growable`;
for a non-growable backing `buffer_capacity()` is the buffer length, and
`resize` is only ever reached on the growable path, exactly as the
`if constexpr` branches in the source.
-/

namespace RtpCpp

/-- Modulus of C++ `std::size_t` arithmetic (64-bit build). -/
def w64 : Nat := 2 ^ 64

/-- `size_t` addition. -/
def add64 (a b : Nat) : Nat := (a + b) % w64

/-- `size_t` subtraction (two's-complement wraparound), for `b ≤ w64`. -/
def sub64 (a b : Nat) : Nat := (a + (w64 - b % w64)) % w64

/-- Read one byte: `buffer_[i]` (bytes are `uint8_t`). Out-of-range reads
return 0; every execution the theorems below depend on stays in bounds. -/
def byteAt (l : List Nat) (i : Nat) : Nat := l.getD i 0 % 256

/-- Write one byte: `buffer_[i] = v`. Out-of-range writes are dropped. -/
def setByte (l : List Nat) (i v : Nat) : List Nat := l.set i (v % 256)

/-- `std::vector::resize(n)`: truncate or zero-extend to length `n`. -/
def resizeList (l : List Nat) (n : Nat) : List Nat :=
  l.take n ++ List.replicate (n - l.length) 0

/-- `std::memmove(&buf[dst], &buf[src], amount)`: all reads come from the
original buffer, exactly as `memmove` guarantees for overlapping ranges. -/
def memmove (buf : List Nat) (dst src amount : Nat) : List Nat :=
  (List.range amount).foldl (fun b i => b.set (dst + i) (buf.getD (src + i) 0)) buf

/-- `read_big_endian<uint16_t>` from `endianness.hpp`. -/
def be16 (l : List Nat) (i : Nat) : Nat :=
  (byteAt l i <<< 8) ||| byteAt l (i + 1)

/-- `read_big_endian<uint32_t>` from `endianness.hpp`. -/
def be32 (l : List Nat) (i : Nat) : Nat :=
  (byteAt l i <<< 24) ||| (byteAt l (i + 1) <<< 16) ||| (byteAt l (i + 2) <<< 8) |||
    byteAt l (i + 3)

/-- `write_big_endian(uint8_t*, uint16_t)` from `endianness.hpp`. -/
def writeBE16 (l : List Nat) (off v : Nat) : List Nat :=
  setByte (setByte l off ((v &&& 0xFF00) >>> 8)) (off + 1) (v &&& 0xFF)

/-- `write_big_endian(uint8_t*, uint32_t)` from `endianness.hpp`. -/
def writeBE32 (l : List Nat) (off v : Nat) : List Nat :=
  setByte (setByte (setByte (setByte l off ((v &&& 0xFF000000) >>> 24))
    (off + 1) ((v &&& 0x00FF0000) >>> 16)) (off + 2) ((v &&& 0x0000FF00) >>> 8))
    (off + 3) (v &&& 0x000000FF)

/-- `RtpCpp::Result` from `RtpPacket.hpp`. -/
inductive Result where
  | kSuccess
  | kBufferTooSmall
  | kFixedBufferTooSmall
  | kParseBufferOverflow
  | kParseExtensionOverflow
  | kInvalidHeaderLength
  | kInvalidRtpHeader
  | kInvalidCsrcCount
deriving DecidableEq, Repr

/-- `RtpCpp::ExtensionHeader` (`id_` and `length_` are `uint16_t`). -/
structure ExtensionHeader where
  id_ : Nat
  length_ : Nat
deriving DecidableEq, Repr

/-- `ExtensionHeader::size_bytes()` = `4 + length_ * 4`. -/
def ExtensionHeader.size_bytes (h : ExtensionHeader) : Nat :=
  4 + (h.length_ % 65536) * 4

/-- State of `RtpCpp::RtpPacket<B>`: member fields of the class plus the
backing buffer contents and the static capability of `B`. -/
structure RtpPacket where
  buffer : List Nat
  csrc : List Nat
  extension_offset : Nat
  payload_offset : Nat
  payload_size : Nat
  packet_size : Nat
  ssrc : Nat
  timestamp : Nat
  ext_id : Nat
  ext_length : Nat
  sequence_number : Nat
  padding_bytes : Nat
  payload_type : Nat
  csrc_count : Nat
  extension_bit : Bool
  marker_bit : Bool
  growable : Bool
deriving DecidableEq, Repr

/-- The default-constructed packet over a growable backing has a 12-byte
zeroed buffer and `packet_size_ = 12`; `emptyWithBuffer` generalises the
backing length while keeping every member at its initializer value. -/
def emptyWithBuffer (g : Bool) (len : Nat) : RtpPacket :=
  { buffer := List.replicate len 0
    csrc := List.replicate 15 0
    extension_offset := 12
    payload_offset := 12
    payload_size := 0
    packet_size := 12
    ssrc := 0
    timestamp := 0
    ext_id := 0
    ext_length := 0
    sequence_number := 0
    padding_bytes := 0
    payload_type := 0
    csrc_count := 0
    extension_bit := false
    marker_bit := false
    growable := g }

/-- `RtpPacket()` with a resizable backing: `buffer_(12)`, `packet_size_(12)`. -/
def emptyGrowable : RtpPacket := emptyWithBuffer true 12

/-- A packet object before any buffer is bound (`packet_size_ = 0`). -/
def freshPacket (g : Bool) : RtpPacket :=
  { emptyWithBuffer g 0 with packet_size := 0 }

/-- `RtpPacket::reset()` (does not touch `extension_offset_`, `packet_size_`
or the buffer). -/
def reset (s : RtpPacket) : RtpPacket :=
  { s with extension_bit := false
           csrc_count := 0
           marker_bit := false
           sequence_number := 0
           timestamp := 0
           ssrc := 0
           csrc := List.replicate 15 0
           ext_id := 0
           ext_length := 0
           padding_bytes := 0
           payload_offset := 12
           payload_size := 0 }

/-- `RtpPacket::on_parse(packet_size)`: reset then record the packet size. -/
def on_parse (s : RtpPacket) (psize : Nat) : RtpPacket :=
  { reset s with packet_size := psize }

/-- `RtpPacket::extract_csrc()`: read `csrc_count_` big-endian 32-bit values
starting at offset 12 into the cached CSRC array. -/
def extract_csrc (s : RtpPacket) : RtpPacket :=
  { s with csrc := (List.range 15).map fun i =>
      if i < s.csrc_count then be32 s.buffer (12 + 4 * i) else s.csrc.getD i 0 }

/-- `RtpPacket::parse_extension()`. -/
def parse_extension (s0 : RtpPacket) : Result × RtpPacket :=
  let s1 := { s0 with extension_offset := s0.payload_offset }
  let s2 := { s1 with ext_id := be16 s1.buffer s1.extension_offset }
  let lengthOff := add64 s2.extension_offset 2
  let s3 := { s2 with ext_length := be16 s2.buffer lengthOff }
  let words := s3.ext_length * 4
  let dataOff := add64 lengthOff 2
  let s4 := { s3 with payload_offset := add64 dataOff words }
  if s4.payload_offset > s4.packet_size then (Result.kParseExtensionOverflow, s4)
  else
    (Result.kSuccess,
      { s4 with payload_size := sub64 (sub64 s4.packet_size s4.payload_offset) s4.padding_bytes })

/-- Tail of `RtpPacket::parse_pkt()` after the version and padding checks:
extension bit, CSRC count and bound check, CSRC extraction, fixed fields,
then either `parse_extension` or the payload-size derivation. -/
def parse_tail (s0 : RtpPacket) : Result × RtpPacket :=
  let s1 := { s0 with extension_bit := ((byteAt s0.buffer 0 &&& 0x10) >>> 4) ≠ 0 }
  let s2 := { s1 with csrc_count := byteAt s1.buffer 0 &&& 0xF }
  let s3 := { s2 with payload_offset := add64 s2.payload_offset (s2.csrc_count * 4) }
  if s3.payload_offset > s3.packet_size then (Result.kParseBufferOverflow, s3)
  else
    let s4 := extract_csrc s3
    let s5 := { s4 with marker_bit := (byteAt s4.buffer 1 >>> 7) ≠ 0
                        payload_type := byteAt s4.buffer 1 &&& 0x7F
                        sequence_number := be16 s4.buffer 2
                        timestamp := be32 s4.buffer 4
                        ssrc := be32 s4.buffer 8 }
    if s5.extension_bit then parse_extension s5
    else
      let psz := sub64 (sub64 s5.payload_size s5.payload_offset) s5.padding_bytes
      (Result.kSuccess, { s5 with payload_size := psz })

/-- `RtpPacket::parse_pkt()` from `RtpPacket.hpp`. -/
def parse_pkt (s0 : RtpPacket) : Result × RtpPacket :=
  if s0.packet_size < 12 then (Result.kBufferTooSmall, s0)
  else
    let s1 := { s0 with payload_offset := 12 }
    if (byteAt s1.buffer 0 &&& 0xC0) >>> 6 ≠ 2 then (Result.kInvalidRtpHeader, s1)
    else if (byteAt s1.buffer 0 &&& 0x20) >>> 5 ≠ 0 then
      let s2 := { s1 with padding_bytes := byteAt s1.buffer (sub64 s1.packet_size 1) }
      if s2.padding_bytes = 0 then (Result.kInvalidRtpHeader, s2)
      else if s2.packet_size < s2.padding_bytes + 12 then (Result.kParseBufferOverflow, s2)
      else parse_tail s2
    else parse_tail s1

/-- `RtpPacket::parse(buffer, packet_size)`: bind the buffer, reset state,
record the explicit packet size, then run `parse_pkt`. -/
def parse_sized (s : RtpPacket) (b : List Nat) (psize : Nat) : Result × RtpPacket :=
  parse_pkt (on_parse { s with buffer := b } psize)

/-- `RtpPacket::parse(buffer)`: the packet size is the buffer size. -/
def parse (s : RtpPacket) (b : List Nat) : Result × RtpPacket :=
  parse_sized s b b.length

/-- `RtpPacket::is_extended()`. -/
def is_extended (s : RtpPacket) : Bool := s.extension_bit

/-- `RtpPacket::set_padding_bytes(uint8_t)`. The mutation below the
capacity step is guarded by the OLD `padding_bytes_ > 0`, exactly as in the
source. -/
def set_padding_bytes (s : RtpPacket) (p0 : Nat) : Result × RtpPacket :=
  let p := p0 % 256
  let step :=
    if s.growable then
      let updated := add64 (sub64 s.packet_size s.padding_bytes) p
      some { s with buffer :=
        if updated > s.buffer.length then resizeList s.buffer updated else s.buffer }
    else if p > s.buffer.length then none
    else some s
  match step with
  | none => (Result.kBufferTooSmall, s)
  | some s1 =>
    let st :=
      if s1.padding_bytes > 0 then
        let ps := add64 (sub64 s1.packet_size s1.padding_bytes) p
        (true, { s1 with packet_size := ps
                         padding_bytes := p
                         buffer := setByte s1.buffer (sub64 ps 1) p })
      else (false, s1)
    let s2 := st.2
    let b0 := (byteAt s2.buffer 0 &&& 0xDF) |||
      (((if st.1 then 1 else 0) <<< 5) &&& 0x20)
    (Result.kSuccess, { s2 with buffer := setByte s2.buffer 0 b0 })

/-- `RtpPacket::set_marker(bool)` (byte 1, bit 7). -/
def set_marker (s : RtpPacket) (m : Bool) : RtpPacket :=
  let s1 := { s with marker_bit := m }
  let b1 := (byteAt s1.buffer 1 &&& 0x7F) ||| (((if m then 1 else 0) <<< 7) &&& 0x80)
  { s1 with buffer := setByte s1.buffer 1 b1 }

/-- `RtpPacket::toggle_ext_bit(bool)` (byte 0, bit 4). -/
def toggle_ext_bit (s : RtpPacket) (flag : Bool) : RtpPacket :=
  let s1 := { s with extension_bit := flag }
  let b0 := (byteAt s1.buffer 0 &&& 0xEF) ||| (((if flag then 1 else 0) <<< 4) &&& 0x10)
  { s1 with buffer := setByte s1.buffer 0 b0 }

/-- Shared tail of the value branch of `set_extension`: move the trailing
region, update sizes and offsets, write the big-endian id and length. -/
def set_extension_go (s : RtpPacket) (dst amount hid hlen : Nat) : Result × RtpPacket :=
  let buf := memmove s.buffer dst s.payload_offset amount
  let s1 := { s with buffer := buf
                     packet_size := add64 dst amount
                     payload_offset := dst
                     ext_id := hid
                     ext_length := hlen }
  let s2 := { s1 with buffer := writeBE16 s1.buffer s1.extension_offset hid }
  (Result.kSuccess,
    { s2 with buffer := writeBE16 s2.buffer (add64 s2.extension_offset 2) hlen })

/-- `RtpPacket::set_extension(std::optional<ExtensionHeader>)`. -/
def set_extension (s : RtpPacket) (h : Option ExtensionHeader) : Result × RtpPacket :=
  match h with
  | none =>
    (Result.kSuccess, { toggle_ext_bit s false with ext_id := 0, ext_length := 0 })
  | some hdr =>
    let hid := hdr.id_ % 65536
    let hlen := hdr.length_ % 65536
    let dst := add64 s.extension_offset (4 + hlen * 4)
    let amount := add64 s.payload_size s.padding_bytes
    let updated := add64 dst amount
    if updated > s.buffer.length then
      if s.growable then
        set_extension_go { s with buffer := resizeList s.buffer updated } dst amount hid hlen
      else (Result.kBufferTooSmall, s)
    else set_extension_go s dst amount hid hlen

/-- `RtpPacket::write_csrc()`. -/
def write_csrc (s : RtpPacket) : RtpPacket :=
  let buf := (List.range s.csrc_count).foldl
    (fun b i => writeBE32 b (12 + 4 * i) (s.csrc.getD i 0)) s.buffer
  { s with buffer := buf }

/-- `RtpPacket::set_csrc(uint8_t count)`. Note: no resize branch exists for
a growable backing in the source. -/
def set_csrc (s : RtpPacket) (c0 : Nat) : Result × RtpPacket :=
  let c := c0 % 256
  if c > 15 then (Result.kInvalidCsrcCount, s)
  else
    let cur := add64 12 (4 * s.csrc_count)
    let up := add64 12 (4 * c)
    let amount := sub64 s.packet_size cur
    if add64 up amount > s.buffer.length then (Result.kBufferTooSmall, s)
    else
      let buf := memmove s.buffer up cur amount
      let ps := add64 (sub64 s.packet_size (s.csrc_count * 4)) (c * 4)
      let s1 := { s with buffer := buf, packet_size := ps, csrc_count := c }
      let b0 := (byteAt s1.buffer 0 &&& 0xF0) ||| (c &&& 0xF)
      (Result.kSuccess, write_csrc { s1 with buffer := setByte s1.buffer 0 b0 })

/-- `RtpPacket::set_payload_type(uint8_t)` (byte 1; the source ORs the full
unmasked argument into the byte). -/
def set_payload_type (s : RtpPacket) (pt0 : Nat) : RtpPacket :=
  let pt := pt0 % 256
  let s1 := { s with payload_type := pt }
  let b1 := (byteAt s1.buffer 1 &&& 0x80) ||| pt
  { s1 with buffer := setByte s1.buffer 1 b1 }

/-- `RtpPacket::set_sequence_number(uint16_t)` (bytes 2-3, big-endian). -/
def set_sequence_number (s : RtpPacket) (q0 : Nat) : RtpPacket :=
  let q := q0 % 65536
  { s with sequence_number := q, buffer := writeBE16 s.buffer 2 q }

/-- `RtpPacket::set_timestamp(uint32_t)` (bytes 4-7, big-endian). -/
def set_timestamp (s : RtpPacket) (t0 : Nat) : RtpPacket :=
  let t := t0 % 4294967296
  { s with timestamp := t, buffer := writeBE32 s.buffer 4 t }

/-- `RtpPacket::set_ssrc(uint32_t)` (bytes 8-11, big-endian). -/
def set_ssrc (s : RtpPacket) (v0 : Nat) : RtpPacket :=
  let v := v0 % 4294967296
  { s with ssrc := v, buffer := writeBE32 s.buffer 8 v }

/-- `RtpPacket::set_payload_size(std::size_t)`. -/
def set_payload_size (s : RtpPacket) (n0 : Nat) : Result × RtpPacket :=
  let n := n0 % w64
  let e := add64 (add64 s.payload_offset n) s.padding_bytes
  if s.growable then
    let buf := if e > s.packet_size then resizeList s.buffer e else s.buffer
    (Result.kSuccess,
      { s with buffer := setByte buf (sub64 e 1) s.padding_bytes
               payload_size := n
               packet_size := e })
  else if e > s.buffer.length then (Result.kBufferTooSmall, s)
  else
    (Result.kSuccess,
      { s with buffer := setByte s.buffer (sub64 e 1) s.padding_bytes
               payload_size := n
               packet_size := e })

/-- The condition of the `assert` inside `RtpPacket::csrc()`:
`csrc_count_ < csrc_.size()`, where `csrc_.size() = kMaxCsrcIds = 15`. -/
abbrev csrc_assert_ok (s : RtpPacket) : Prop := s.csrc_count < 15

end RtpCpp

namespace RtpCpp

/-- The minimal valid 12-byte RTP packet: version 2, everything else zero. -/
def minimalPacketBytes : List Nat := 128 :: List.replicate 11 0

/-- A 72-byte packet with version 2 and CSRC count 15 (byte 0 = 0x8F). -/
def maxCsrcPacketBytes : List Nat := 143 :: List.replicate 71 0

/-- Claim C1: on a packet with `padding_bytes = 0`, `set_padding_bytes(4)` on the
default growable packet returns `kSuccess` but — because the mutation is guarded
by the OLD `padding_bytes_ > 0` — leaves the packet size at 12 instead of 16,
leaves `padding_bytes` at 0, clears the padding flag bit instead of setting it,
and never writes the trailing length byte (the backing is even resized to 16,
yet the packet never uses the room). This contradicts the claimed behaviour. -/
theorem c1_padding_from_zero_noop :
    (set_padding_bytes emptyGrowable 4).1 = Result.kSuccess ∧
    (set_padding_bytes emptyGrowable 4).2.packet_size = 12 ∧
    (set_padding_bytes emptyGrowable 4).2.padding_bytes = 0 ∧
    byteAt (set_padding_bytes emptyGrowable 4).2.buffer 0 &&& 0x20 = 0 ∧
    (set_padding_bytes emptyGrowable 4).2.buffer.length = 16 ∧
    byteAt (set_padding_bytes emptyGrowable 4).2.buffer
      ((set_padding_bytes emptyGrowable 4).2.packet_size - 1) ≠ 4 := by
  decide

/-- Claim C2 counterexample: starting from the empty packet over the default
growable backing (12-byte buffer), `set_csrc(1)` does not succeed with size 16
as the claim states: `set_csrc` has no resize branch for a growable backing and
returns `kBufferTooSmall`, leaving the packet unchanged. -/
theorem c2_growable_set_csrc_fails :
    (set_csrc emptyGrowable 1).1 = Result.kBufferTooSmall ∧
    (set_csrc emptyGrowable 1).1 ≠ Result.kSuccess ∧
    (set_csrc emptyGrowable 1).2.packet_size = 12 := by
  decide

/-- Claim C3: parsing the minimal valid 12-byte packet (no extension path)
succeeds, but `payload_size` is computed as `payload_size_ - payload_offset_ -
padding_bytes_` from the reset-to-zero `payload_size_`, wrapping to
`2^64 - 12` instead of `packet_size - payload_offset - padding_bytes = 0`;
the claimed invariant `packet_size = payload_offset + payload_size +
padding_bytes` fails after this successful parse. -/
theorem c3_no_extension_payload_size_wraps :
    (parse (freshPacket true) minimalPacketBytes).1 = Result.kSuccess ∧
    (parse (freshPacket true) minimalPacketBytes).2.packet_size = 12 ∧
    (parse (freshPacket true) minimalPacketBytes).2.payload_offset = 12 ∧
    (parse (freshPacket true) minimalPacketBytes).2.padding_bytes = 0 ∧
    (parse (freshPacket true) minimalPacketBytes).2.payload_size = 2 ^ 64 - 12 ∧
    (parse (freshPacket true) minimalPacketBytes).2.packet_size ≠
      (parse (freshPacket true) minimalPacketBytes).2.payload_offset +
      (parse (freshPacket true) minimalPacketBytes).2.payload_size +
      (parse (freshPacket true) minimalPacketBytes).2.padding_bytes := by
  decide

/-- Claim C5: a successful `set_extension` with a header value never sets the
extension flag: from the default growable packet, `set_extension({id 3, len 1})`
returns `kSuccess` yet `is_extended()` is still `false` and the extension bit
(bit 4 of byte 0) is still clear — only the `set_extension(none)` direction of
the claimed iff holds (shown on the resulting state). -/
theorem c5_set_extension_leaves_flag_clear :
    (set_extension emptyGrowable (some ⟨3, 1⟩)).1 = Result.kSuccess ∧
    is_extended (set_extension emptyGrowable (some ⟨3, 1⟩)).2 = false ∧
    byteAt (set_extension emptyGrowable (some ⟨3, 1⟩)).2.buffer 0 &&& 0x10 = 0 ∧
    (set_extension (set_extension emptyGrowable (some ⟨3, 1⟩)).2 none).1 = Result.kSuccess ∧
    is_extended (set_extension (set_extension emptyGrowable (some ⟨3, 1⟩)).2 none).2 = false ∧
    byteAt (set_extension (set_extension emptyGrowable (some ⟨3, 1⟩)).2 none).2.buffer 0 &&&
      0x10 = 0 := by
  decide

/-- Claim C6 counterexample: parsing an 11-byte buffer (smaller than the fixed
12-byte header) returns `kBufferTooSmall`, not `kInvalidHeaderLength` as the
claim states. -/
theorem c6_short_parse_is_buffer_too_small :
    (parse (freshPacket true) (List.replicate 11 0)).1 = Result.kBufferTooSmall ∧
    (parse (freshPacket true) (List.replicate 11 0)).1 ≠ Result.kInvalidHeaderLength := by
  decide

/-- Claim C8 counterexample: `set_payload_type(128)` ORs the full unmasked
argument into byte 1, so the marker bit (bit 7, outside the payload type's
`0x7F` mask location) flips from 0 to 1 — the setters do not leave all bits
outside the written field's mask unchanged for every argument value. -/
theorem c8_payload_type_overflows_into_marker_bit :
    byteAt (set_payload_type emptyGrowable 128).buffer 1 &&& 0x80 = 0x80 ∧
    byteAt emptyGrowable.buffer 1 &&& 0x80 = 0 := by
  decide

/-- Claim C9: parsing a well-formed 72-byte packet whose CSRC count is the
maximum legal value 15 succeeds, and the resulting reachable state violates
the `csrc()` accessor's assertion `csrc_count_ < csrc_.size()` (15 < 15 is
false): the assertion does not hold for every reachable state. -/
theorem c9_assert_fails_at_max_csrc :
    (parse (freshPacket true) maxCsrcPacketBytes).1 = Result.kSuccess ∧
    (parse (freshPacket true) maxCsrcPacketBytes).2.csrc_count = 15 ∧
    ¬ csrc_assert_ok (parse (freshPacket true) maxCsrcPacketBytes).2 := by
  decide

end RtpCpp

namespace RtpCpp

/-- `size_t` addition without wraparound. -/
theorem add64_eq {a b : Nat} (h : a + b < w64) : add64 a b = a + b :=
  Nat.mod_eq_of_lt h

/-- `size_t` subtraction without wraparound. -/
theorem sub64_eq {a b : Nat} (hba : b ≤ a) (ha : a < w64) : sub64 a b = a - b := by
  have h64 : w64 = 18446744073709551616 := by norm_num [w64]
  have hb : b % w64 = b := Nat.mod_eq_of_lt (lt_of_le_of_lt hba ha)
  unfold sub64
  rw [hb]
  rw [h64] at ha ⊢
  omega

/-- Writing a byte elsewhere leaves a read untouched. -/
theorem byteAt_setByte_ne (l : List Nat) {i j : Nat} (v : Nat) (h : i ≠ j) :
    byteAt (setByte l i v) j = byteAt l j := by
  simp [byteAt, setByte, List.getD_eq_getElem?_getD, List.getElem?_set_ne h]

/-- Reading back an in-range byte write. -/
theorem byteAt_setByte_self (l : List Nat) {i : Nat} (v : Nat) (h : i < l.length) :
    byteAt (setByte l i v) i = v % 256 := by
  simp [byteAt, setByte, List.getD_eq_getElem?_getD, List.getElem?_set_self (by simpa using h),
    Nat.mod_mod_of_dvd _ (dvd_refl 256)]

/-- An out-of-range byte write is dropped. -/
theorem setByte_oob (l : List Nat) {i : Nat} (v : Nat) (h : l.length ≤ i) :
    setByte l i v = l := by
  simp [setByte, List.set_eq_of_length_le h]

/-- `setByte` preserves the buffer length. -/
theorem setByte_length (l : List Nat) (i v : Nat) : (setByte l i v).length = l.length := by
  simp [setByte]

/-- `resize(n)` yields a buffer of length exactly `n`. -/
theorem resizeList_length (l : List Nat) (n : Nat) : (resizeList l n).length = n := by
  simp [resizeList]
  omega

/-- A growing `resize` preserves the bytes already present. -/
theorem byteAt_resizeList_of_lt (l : List Nat) {n i : Nat} (h : i < l.length)
    (hn : l.length ≤ n) : byteAt (resizeList l n) i = byteAt l i := by
  simp [resizeList, List.take_of_length_le hn, byteAt, List.getD_eq_getElem?_getD,
    List.getElem?_append_left h]

/-- `memmove` of zero bytes is the identity. -/
theorem memmove_zero (buf : List Nat) (dst src : Nat) : memmove buf dst src 0 = buf := rfl

/-- `memmove` preserves the buffer length. -/
theorem memmove_succ (buf : List Nat) (dst src n : Nat) :
    memmove buf dst src (n + 1) =
      (memmove buf dst src n).set (dst + n) (buf.getD (src + n) 0) := by
  simp [memmove, List.range_succ]

/-- `memmove` preserves the buffer length. -/
theorem memmove_length (buf : List Nat) (dst src amount : Nat) :
    (memmove buf dst src amount).length = buf.length := by
  induction amount with
  | zero => rfl
  | succ n ih => rw [memmove_succ, List.length_set, ih]

/-- A byte inside the destination range of `memmove` holds the corresponding
source byte of the original buffer. -/
theorem memmove_getD_moved (buf : List Nat) (dst src : Nat) {amount i : Nat}
    (h : i < amount) (hb : dst + i < buf.length) :
    (memmove buf dst src amount).getD (dst + i) 0 = buf.getD (src + i) 0 := by
  induction amount with
  | zero => omega
  | succ n ih =>
    by_cases hi : i = n
    · subst hi
      have hlen : dst + i < (memmove buf dst src i).length := by
        rw [memmove_length]; exact hb
      rw [memmove_succ, List.getD_eq_getElem?_getD, List.getElem?_set_self hlen]
      rfl
    · have hne : dst + n ≠ dst + i := by omega
      rw [memmove_succ, List.getD_eq_getElem?_getD, List.getElem?_set_ne hne,
        ← List.getD_eq_getElem?_getD]
      exact ih (by omega)

/-- `write_csrc` only rewrites buffer bytes; sizes and fields are untouched. -/
theorem write_csrc_packet_size (s : RtpPacket) : (write_csrc s).packet_size = s.packet_size := rfl

/-- `set_csrc(16)` fails with `kInvalidCsrcCount` and leaves the packet
untouched, from any state. -/
theorem set_csrc_16_invalid (s : RtpPacket) : set_csrc s 16 = (Result.kInvalidCsrcCount, s) := rfl

end RtpCpp

namespace RtpCpp

/-- Claim C6 (amended): for every parse call whose packet size is smaller than
the fixed 12-byte header, parse returns `kBufferTooSmall` (the enum member
`kInvalidHeaderLength` exists but `parse_pkt` never produces it). This covers
every overload: each one funnels the buffer and explicit or implicit packet
size through `parse_sized`. -/
theorem c6_amended_short_parse (s : RtpPacket) (b : List Nat) (n : Nat) (h : n < 12) :
    (parse_sized s b n).1 = Result.kBufferTooSmall := by
  simp [parse_sized, parse_pkt, on_parse, reset, h]

/-- Claim C6 witness: parsing with an explicit packet size of 5 returns
`kBufferTooSmall`. -/
theorem c6_amended_short_parse_witness :
    (parse_sized (freshPacket true) (List.replicate 5 0) 5).1 = Result.kBufferTooSmall :=
  c6_amended_short_parse (freshPacket true) (List.replicate 5 0) 5 (by decide)

/-- Claim C7: for every buffer of at least 12 bytes, parse returns
`kInvalidRtpHeader` when the version bits (byte 0, bits 7-6) differ from 2;
and when the version is 2, the padding flag (bit 5) is set, and the stored
padding length (the last byte of the packet) is zero, parse also returns
`kInvalidRtpHeader`. -/
theorem c7_parse_header_rejections (s : RtpPacket) (b : List Nat)
    (h12 : 12 ≤ b.length) (hW : b.length < w64) :
    ((byteAt b 0 &&& 0xC0) >>> 6 ≠ 2 → (parse s b).1 = Result.kInvalidRtpHeader) ∧
    ((byteAt b 0 &&& 0xC0) >>> 6 = 2 → (byteAt b 0 &&& 0x20) >>> 5 ≠ 0 →
      byteAt b (b.length - 1) = 0 → (parse s b).1 = Result.kInvalidRtpHeader) := by
  have hnl : ¬ b.length < 12 := Nat.not_lt.mpr h12
  have hsub : sub64 b.length 1 = b.length - 1 := sub64_eq (by omega) hW
  constructor
  · intro hv
    simp [parse, parse_sized, parse_pkt, on_parse, reset, hnl, hv]
  · intro hv hp hz
    simp [parse, parse_sized, parse_pkt, on_parse, reset, hnl, hv, hp, hsub, hz]

/-- Claim C7 witness: a 12-byte version-0 buffer and a 12-byte version-2
buffer with the padding flag set and a zero trailing byte are both rejected
with `kInvalidRtpHeader`. -/
theorem c7_parse_header_rejections_witness :
    (parse (freshPacket false) (List.replicate 12 0)).1 = Result.kInvalidRtpHeader ∧
    (parse (freshPacket false) (160 :: List.replicate 11 0)).1 = Result.kInvalidRtpHeader :=
  ⟨(c7_parse_header_rejections (freshPacket false) (List.replicate 12 0)
      (by decide) (by decide)).1 (by decide),
   (c7_parse_header_rejections (freshPacket false) (160 :: List.replicate 11 0)
      (by decide) (by decide)).2 (by decide) (by decide) (by decide)⟩

end RtpCpp

namespace RtpCpp

/-- Claim C10: whenever `set_payload_size(n)` returns `kSuccess` it sets
`packet_size` to `payload_offset + n + padding_bytes` and writes the current
`padding_bytes` value to the byte at index `payload_offset + n +
padding_bytes - 1`, the new last byte of the packet; in particular, for a
packet with `padding_bytes = 0` and `n ≥ 1` the last byte of the payload
region is overwritten with 0. -/
theorem c10_set_payload_size_writes_padding (s : RtpPacket) (n : Nat)
    (hpo : 1 ≤ s.payload_offset)
    (hbuf : s.packet_size ≤ s.buffer.length)
    (hpad : s.padding_bytes < 256)
    (hsz : s.payload_offset + n + s.padding_bytes < w64) :
    (set_payload_size s n).1 = Result.kSuccess →
      (set_payload_size s n).2.packet_size = s.payload_offset + n + s.padding_bytes ∧
      byteAt (set_payload_size s n).2.buffer (s.payload_offset + n + s.padding_bytes - 1) =
        s.padding_bytes := by
  intro hok
  have hn : n % w64 = n := Nat.mod_eq_of_lt (by omega)
  have he1 : add64 s.payload_offset n = s.payload_offset + n := add64_eq (by omega)
  have he2 : add64 (s.payload_offset + n) s.padding_bytes =
      s.payload_offset + n + s.padding_bytes := add64_eq (by omega)
  have hes : sub64 (s.payload_offset + n + s.padding_bytes) 1 =
      s.payload_offset + n + s.padding_bytes - 1 := sub64_eq (by omega) hsz
  have hpadm : s.padding_bytes % 256 = s.padding_bytes := Nat.mod_eq_of_lt hpad
  rcases hg : s.growable with _ | _
  · rcases hcap : decide (s.payload_offset + n + s.padding_bytes > s.buffer.length) with _ | _
    · have hcap' : ¬ s.payload_offset + n + s.padding_bytes > s.buffer.length := of_decide_eq_false hcap
      have hidx : s.payload_offset + n + s.padding_bytes - 1 < s.buffer.length := by omega
      constructor
      · simp [set_payload_size, hg, hn, he1, he2, hcap']
      · simp [set_payload_size, hg, hn, he1, he2, hes, hcap',
          byteAt_setByte_self _ _ hidx, hpadm]
    · have hcap' : s.payload_offset + n + s.padding_bytes > s.buffer.length := of_decide_eq_true hcap
      exfalso
      have : (set_payload_size s n).1 = Result.kBufferTooSmall := by
        simp [set_payload_size, hg, hn, he1, he2, hcap']
      rw [this] at hok
      exact absurd hok (by decide)
  · rcases hgrow : decide (s.payload_offset + n + s.padding_bytes > s.packet_size) with _ | _
    · have hgrow' : ¬ s.payload_offset + n + s.padding_bytes > s.packet_size := of_decide_eq_false hgrow
      have hidx : s.payload_offset + n + s.padding_bytes - 1 < s.buffer.length := by omega
      constructor
      · simp [set_payload_size, hg, hn, he1, he2, hgrow']
      · simp [set_payload_size, hg, hn, he1, he2, hes, hgrow',
          byteAt_setByte_self _ _ hidx, hpadm]
    · have hgrow' : s.payload_offset + n + s.padding_bytes > s.packet_size := of_decide_eq_true hgrow
      have hidx : s.payload_offset + n + s.padding_bytes - 1 <
          (resizeList s.buffer (s.payload_offset + n + s.padding_bytes)).length := by
        rw [resizeList_length]; omega
      constructor
      · simp [set_payload_size, hg, hn, he1, he2, hgrow']
      · simp [set_payload_size, hg, hn, he1, he2, hes, hgrow',
          byteAt_setByte_self _ _ hidx, hpadm]

/-- Claim C10 witness: on the default growable packet (`payload_offset = 12`,
`padding_bytes = 0`), `set_payload_size(3)` yields packet size 15 and writes 0
at index 14, the last byte of the payload region. -/
theorem c10_set_payload_size_writes_padding_witness :
    (set_payload_size emptyGrowable 3).2.packet_size = 12 + 3 + 0 ∧
    byteAt (set_payload_size emptyGrowable 3).2.buffer (12 + 3 + 0 - 1) = 0 :=
  c10_set_payload_size_writes_padding emptyGrowable 3 (by decide) (by decide) (by decide)
    (by decide) (by decide)

end RtpCpp

namespace RtpCpp

/-- Claim C2 (amended): starting from an empty packet (size 12) whose backing
buffer already holds at least `12 + 4k` bytes, `set_csrc(k)` succeeds for every
`k ≤ 15` and yields packet size `12 + 4k`; `set_csrc` never resizes the
backing, so on the default growable backing (12-byte buffer) it fails with
`kBufferTooSmall` for `k ≥ 1` (see the counterexample); and `set_csrc(16)`
fails with `kInvalidCsrcCount`, leaving the packet — in particular its size —
unchanged from the last successful call. -/
theorem c2_amended_csrc_growth (g : Bool) (L k : Nat) (hk : k ≤ 15)
    (hL : 12 + 4 * k ≤ L) :
    (set_csrc (emptyWithBuffer g L) k).1 = Result.kSuccess ∧
    (set_csrc (emptyWithBuffer g L) k).2.packet_size = 12 + 4 * k ∧
    set_csrc (set_csrc (emptyWithBuffer g L) k).2 16 =
      (Result.kInvalidCsrcCount, (set_csrc (emptyWithBuffer g L) k).2) := by
  have hk256 : k % 256 = k := Nat.mod_eq_of_lt (by omega)
  have hk15 : ¬ k % 256 > 15 := by omega
  have hcur : add64 12 (4 * (emptyWithBuffer g L).csrc_count) = 12 := by
    simp [emptyWithBuffer, add64_eq, w64]
  have hup : add64 12 (4 * (k % 256)) = 12 + 4 * k := by
    rw [hk256]; exact add64_eq (by norm_num [w64]; omega)
  have hamount : sub64 (emptyWithBuffer g L).packet_size 12 = 0 := by
    simp only [emptyWithBuffer]
    rw [sub64_eq (by omega) (by norm_num [w64])]
  have hupa : add64 (12 + 4 * k) 0 = 12 + 4 * k := add64_eq (by norm_num [w64]; omega)
  have hlen : (emptyWithBuffer g L).buffer.length = L := by simp [emptyWithBuffer]
  have hfit : ¬ 12 + 4 * k > (emptyWithBuffer g L).buffer.length := by rw [hlen]; omega
  have hps : add64 (sub64 (emptyWithBuffer g L).packet_size
      ((emptyWithBuffer g L).csrc_count * 4)) (k % 256 * 4) = 12 + 4 * k := by
    simp only [emptyWithBuffer, hk256]
    rw [sub64_eq (by omega) (by norm_num [w64]), add64_eq (by norm_num [w64]; omega)]
    omega
  refine ⟨?_, ?_, set_csrc_16_invalid _⟩
  · simp [set_csrc, hk15, hcur, hup, hamount, hupa, hfit, hps]
  · simp [set_csrc, hk15, hcur, hup, hamount, hupa, hfit, hps, write_csrc_packet_size]

/-- Claim C2 witness: with a 72-byte backing, `set_csrc(15)` succeeds with
packet size 72, and `set_csrc(16)` then fails leaving the state unchanged. -/
theorem c2_amended_csrc_growth_witness :
    (set_csrc (emptyWithBuffer true 72) 15).1 = Result.kSuccess ∧
    (set_csrc (emptyWithBuffer true 72) 15).2.packet_size = 12 + 4 * 15 ∧
    set_csrc (set_csrc (emptyWithBuffer true 72) 15).2 16 =
      (Result.kInvalidCsrcCount, (set_csrc (emptyWithBuffer true 72) 15).2) :=
  c2_amended_csrc_growth true 72 15 (by decide) (by decide)

end RtpCpp

namespace RtpCpp

/-- Every byte read is below 256. -/
theorem byteAt_lt (l : List Nat) (i : Nat) : byteAt l i < 256 :=
  Nat.mod_lt _ (by decide)

set_option maxRecDepth 4096

/-- Bits outside the marker mask survive the marker write (byte values). -/
theorem marker_mask_aux : ∀ x < 256, ∀ v < 2,
    ((x &&& 127 ||| (v <<< 7 &&& 128)) % 256) &&& 127 = x &&& 127 := by decide

/-- The top bit of a byte is either clear or set. -/
theorem and_128_cases : ∀ x < 256, x &&& 128 = 0 ∨ x &&& 128 = 128 := by decide

/-- Bits outside the payload-type mask survive the write of a 7-bit value. -/
theorem pt_mask_aux : ∀ x < 256, ∀ p < 128,
    ((x &&& 128 ||| p) % 256) &&& 128 = x &&& 128 := by
  intro x hx p hp
  have hcase := and_128_cases x hx
  have h0 : ∀ p < 128, ((0 ||| p) % 256) &&& 128 = 0 := by decide
  have h1 : ∀ p < 128, ((128 ||| p) % 256) &&& 128 = 128 := by decide
  rcases hcase with h | h
  · rw [h]; exact h0 p hp
  · rw [h]; exact h1 p hp

/-- `write_big_endian` of a 16-bit value leaves other bytes unchanged. -/
theorem byteAt_writeBE16_ne (l : List Nat) (off v j : Nat) (h1 : off ≠ j)
    (h2 : off + 1 ≠ j) : byteAt (writeBE16 l off v) j = byteAt l j := by
  simp only [writeBE16]
  rw [byteAt_setByte_ne _ _ h2, byteAt_setByte_ne _ _ h1]

/-- `write_big_endian` of a 32-bit value leaves other bytes unchanged. -/
theorem byteAt_writeBE32_ne (l : List Nat) (off v j : Nat) (h1 : off ≠ j)
    (h2 : off + 1 ≠ j) (h3 : off + 2 ≠ j) (h4 : off + 3 ≠ j) :
    byteAt (writeBE32 l off v) j = byteAt l j := by
  simp only [writeBE32]
  rw [byteAt_setByte_ne _ _ h4, byteAt_setByte_ne _ _ h3, byteAt_setByte_ne _ _ h2,
    byteAt_setByte_ne _ _ h1]

/-- The size-related state a fixed-header setter must not disturb. -/
def coreSizes (s : RtpPacket) : Nat × Nat × Nat × Nat × Nat :=
  (s.packet_size, s.payload_offset, s.payload_size, s.csrc_count, s.padding_bytes)

/-- `set_marker` keeps byte 1's low seven bits. -/
theorem set_marker_mask_preserved (s : RtpPacket) (m : Bool) :
    byteAt (set_marker s m).buffer 1 &&& 0x7F = byteAt s.buffer 1 &&& 0x7F := by
  have hbuf : (set_marker s m).buffer = setByte s.buffer 1
      ((byteAt s.buffer 1 &&& 0x7F) ||| (((if m then 1 else 0) <<< 7) &&& 0x80)) := rfl
  rcases Nat.lt_or_ge 1 s.buffer.length with h | h
  · rw [hbuf, byteAt_setByte_self _ _ h]
    exact marker_mask_aux (byteAt s.buffer 1) (byteAt_lt _ _) (if m then 1 else 0)
      (by cases m <;> decide)
  · rw [hbuf, setByte_oob _ _ h]

/-- `set_payload_type` with an in-range argument keeps byte 1's top bit. -/
theorem set_payload_type_mask_preserved (s : RtpPacket) (pt : Nat) (hpt : pt ≤ 127) :
    byteAt (set_payload_type s pt).buffer 1 &&& 0x80 = byteAt s.buffer 1 &&& 0x80 := by
  have hbuf : (set_payload_type s pt).buffer = setByte s.buffer 1
      ((byteAt s.buffer 1 &&& 0x80) ||| pt % 256) := rfl
  rcases Nat.lt_or_ge 1 s.buffer.length with h | h
  · rw [hbuf, byteAt_setByte_self _ _ h]
    exact pt_mask_aux (byteAt s.buffer 1) (byteAt_lt _ _) (pt % 256)
      (by omega)
  · rw [hbuf, setByte_oob _ _ h]

/-- Claim C8 (amended): for every packet state and every argument value, the
fixed-header setters `set_marker`, `set_payload_type`, `set_sequence_number`,
`set_timestamp` and `set_ssrc` leave `packet_size`, `payload_offset`,
`payload_size`, `csrc_count` and `padding_bytes` unchanged and touch no
buffer byte outside their own field location; the bits outside the field's
mask within the touched byte are preserved by `set_marker` for every argument
and by `set_payload_type` for arguments of at most 127 (for larger arguments
the unmasked OR can flip the marker bit, see the counterexample). -/
theorem c8_amended_fixed_setters (s : RtpPacket) (m : Bool) (pt q t v i : Nat) :
    coreSizes (set_marker s m) = coreSizes s ∧
    coreSizes (set_payload_type s pt) = coreSizes s ∧
    coreSizes (set_sequence_number s q) = coreSizes s ∧
    coreSizes (set_timestamp s t) = coreSizes s ∧
    coreSizes (set_ssrc s v) = coreSizes s ∧
    (i ≠ 1 → byteAt (set_marker s m).buffer i = byteAt s.buffer i) ∧
    byteAt (set_marker s m).buffer 1 &&& 0x7F = byteAt s.buffer 1 &&& 0x7F ∧
    (i ≠ 1 → byteAt (set_payload_type s pt).buffer i = byteAt s.buffer i) ∧
    (pt ≤ 127 →
      byteAt (set_payload_type s pt).buffer 1 &&& 0x80 = byteAt s.buffer 1 &&& 0x80) ∧
    (i ≠ 2 → i ≠ 3 → byteAt (set_sequence_number s q).buffer i = byteAt s.buffer i) ∧
    (i < 4 ∨ 7 < i → byteAt (set_timestamp s t).buffer i = byteAt s.buffer i) ∧
    (i < 8 ∨ 11 < i → byteAt (set_ssrc s v).buffer i = byteAt s.buffer i) := by
  refine ⟨rfl, rfl, rfl, rfl, rfl, ?_, set_marker_mask_preserved s m, ?_,
    set_payload_type_mask_preserved s pt, ?_, ?_, ?_⟩
  · intro hi
    exact byteAt_setByte_ne _ _ (Ne.symm hi)
  · intro hi
    exact byteAt_setByte_ne _ _ (Ne.symm hi)
  · intro h2 h3
    exact byteAt_writeBE16_ne _ _ _ _ (Ne.symm h2) (by omega)
  · intro hr
    exact byteAt_writeBE32_ne _ _ _ _ (by omega) (by omega) (by omega) (by omega)
  · intro hr
    exact byteAt_writeBE32_ne _ _ _ _ (by omega) (by omega) (by omega) (by omega)

/-- Claim C8 witness: `set_payload_type(5)` on the default growable packet
keeps the size fields and preserves the marker bit of byte 1. -/
theorem c8_amended_fixed_setters_witness :
    coreSizes (set_payload_type emptyGrowable 5) = coreSizes emptyGrowable ∧
    byteAt (set_payload_type emptyGrowable 5).buffer 1 &&& 0x80 =
      byteAt emptyGrowable.buffer 1 &&& 0x80 :=
  ⟨(c8_amended_fixed_setters emptyGrowable true 5 7 9 11 0).2.1,
   (c8_amended_fixed_setters emptyGrowable true 5 7 9 11 0).2.2.2.2.2.2.2.2.1 (by decide)⟩

end RtpCpp

namespace RtpCpp

/-- A reachable packet with two CSRCs and no extension: from the default
growable packet, `set_payload_size(100)` (grows the backing to 112),
`set_payload_size(50)` (shrinks the packet to 62 without shrinking the
backing), then `set_csrc(2)` (now the backing fits, packet size 70). -/
def c4Packet : RtpPacket :=
  (set_csrc (set_payload_size (set_payload_size emptyGrowable 100).2 50).2 2).2

/-- Claim C4 counterexample: `c4Packet` is reached by three successful
mutations, has CSRC count 2, no extension, and size 70; `set_extension({id 3,
len 1})` on it succeeds but leaves the packet size at 70 instead of
increasing it by `4 + 4·1 = 8` (the stale `extension_offset` of 12 makes the
new extension overwrite the CSRC region instead of following it). -/
theorem c4_set_extension_wrong_delta :
    (set_payload_size emptyGrowable 100).1 = Result.kSuccess ∧
    (set_payload_size (set_payload_size emptyGrowable 100).2 50).1 = Result.kSuccess ∧
    (set_csrc (set_payload_size (set_payload_size emptyGrowable 100).2 50).2 2).1 =
      Result.kSuccess ∧
    c4Packet.csrc_count = 2 ∧
    is_extended c4Packet = false ∧
    c4Packet.packet_size = 70 ∧
    (set_extension c4Packet (some ⟨3, 1⟩)).1 = Result.kSuccess ∧
    (set_extension c4Packet (some ⟨3, 1⟩)).2.packet_size = 70 ∧
    (set_extension c4Packet (some ⟨3, 1⟩)).2.packet_size ≠
      c4Packet.packet_size + (4 + 4 * 1) := by
  decide

/-- The tail of the value branch of `set_extension` succeeds and installs the
new sizes and offsets. -/
theorem set_extension_go_sizes (s : RtpPacket) (dst amount hid hl2 : Nat)
    (hW : dst + amount < w64) :
    (set_extension_go s dst amount hid hl2).1 = Result.kSuccess ∧
    (set_extension_go s dst amount hid hl2).2.packet_size = dst + amount ∧
    (set_extension_go s dst amount hid hl2).2.payload_offset = dst := by
  refine ⟨rfl, ?_, rfl⟩
  simp [set_extension_go, add64_eq hW]

/-- The tail of the value branch of `set_extension` relocates the trailing
bytes to start at `dst`. -/
theorem set_extension_go_moves (s : RtpPacket) (dst amount hid hl2 i : Nat)
    (hi : i < amount)
    (hdisj : s.extension_offset + 4 ≤ dst)
    (hb : dst + i < s.buffer.length)
    (heo : s.extension_offset + 2 < w64) :
    byteAt (set_extension_go s dst amount hid hl2).2.buffer (dst + i) =
      byteAt s.buffer (s.payload_offset + i) := by
  rw [show (set_extension_go s dst amount hid hl2).2.buffer =
      writeBE16 (writeBE16 (memmove s.buffer dst s.payload_offset amount)
        s.extension_offset hid) (add64 s.extension_offset 2) hl2 from rfl]
  rw [add64_eq heo]
  rw [byteAt_writeBE16_ne _ _ _ _ (by omega) (by omega),
    byteAt_writeBE16_ne _ _ _ _ (by omega) (by omega)]
  unfold byteAt
  rw [memmove_getD_moved _ _ _ hi hb]

end RtpCpp

namespace RtpCpp

/-- Claim C4 (amended): `set_extension({id, length})` on a packet of size S
that still satisfies `packet_size = payload_offset + payload_size +
padding_bytes` and whose `extension_offset` coincides with its
`payload_offset` (true of any packet that never held CSRCs or an extension,
where both are 12) succeeds when the backing is growable or already large
enough, relocates the trailing region (old payload + padding) to begin
immediately after the new extension region, and increases the packet size by
exactly `4 + 4·length`; a non-growable backing that cannot hold the new size
yields `kBufferTooSmall` and leaves the packet untouched. A packet that
acquired CSRCs through `set_csrc` violates these premises (`set_csrc` updates
neither `payload_offset` nor `extension_offset`), and there the size delta is
not `4 + 4·length` — see the counterexample, where the delta is 0. -/
theorem c4_amended_extension_delta (s : RtpPacket) (idv lenv i : Nat)
    (hlen : lenv < 65536)
    (hoff : s.extension_offset = s.payload_offset)
    (hinv : s.packet_size = s.payload_offset + s.payload_size + s.padding_bytes)
    (hsm : s.payload_offset + 4 + 4 * lenv + s.payload_size + s.padding_bytes < w64) :
    (s.growable = true ∨ s.packet_size + (4 + 4 * lenv) ≤ s.buffer.length →
      (set_extension s (some ⟨idv, lenv⟩)).1 = Result.kSuccess ∧
      (set_extension s (some ⟨idv, lenv⟩)).2.packet_size =
        s.packet_size + (4 + 4 * lenv) ∧
      (set_extension s (some ⟨idv, lenv⟩)).2.payload_offset =
        s.payload_offset + (4 + 4 * lenv) ∧
      (i < s.payload_size + s.padding_bytes → s.payload_offset + i < s.buffer.length →
        byteAt (set_extension s (some ⟨idv, lenv⟩)).2.buffer
            (s.payload_offset + (4 + 4 * lenv) + i) =
          byteAt s.buffer (s.payload_offset + i))) ∧
    (s.growable = false → s.buffer.length < s.packet_size + (4 + 4 * lenv) →
      set_extension s (some ⟨idv, lenv⟩) = (Result.kBufferTooSmall, s)) := by
  have hl16 : lenv % 65536 = lenv := Nat.mod_eq_of_lt hlen
  have hdst : add64 s.extension_offset (4 + lenv * 4) =
      s.payload_offset + (4 + 4 * lenv) := by
    rw [hoff, add64_eq (by omega)]
    omega
  have hamt : add64 s.payload_size s.padding_bytes = s.payload_size + s.padding_bytes :=
    add64_eq (by omega)
  have hupd : add64 (s.payload_offset + (4 + 4 * lenv)) (s.payload_size + s.padding_bytes) =
      s.packet_size + (4 + 4 * lenv) := by
    rw [add64_eq (by omega)]
    omega
  constructor
  · intro hA
    rcases hcond : decide (s.packet_size + (4 + 4 * lenv) > s.buffer.length) with _ | _
    · have hfits : ¬ s.packet_size + (4 + 4 * lenv) > s.buffer.length :=
        of_decide_eq_false hcond
      have hfeq : set_extension s (some ⟨idv, lenv⟩) =
          set_extension_go s (s.payload_offset + (4 + 4 * lenv))
            (s.payload_size + s.padding_bytes) (idv % 65536) lenv := by
        simp only [set_extension, hl16, hdst, hamt, hupd]
        rw [if_neg hfits]
      have hsizes := set_extension_go_sizes s (s.payload_offset + (4 + 4 * lenv))
        (s.payload_size + s.padding_bytes) (idv % 65536) lenv (by omega)
      refine ⟨?_, ?_, ?_, ?_⟩
      · rw [hfeq]; exact hsizes.1
      · rw [hfeq, hsizes.2.1]; omega
      · rw [hfeq, hsizes.2.2]
      · intro hi hbnd
        rw [hfeq]
        exact set_extension_go_moves s _ _ _ _ _ hi (by omega) (by omega) (by omega)
    · have hbig : s.packet_size + (4 + 4 * lenv) > s.buffer.length :=
        of_decide_eq_true hcond
      have hg : s.growable = true := by
        rcases hA with h | h
        · exact h
        · exact absurd h (by omega)
      have hfeq : set_extension s (some ⟨idv, lenv⟩) =
          set_extension_go { s with buffer := resizeList s.buffer (s.packet_size + (4 + 4 * lenv)) }
            (s.payload_offset + (4 + 4 * lenv))
            (s.payload_size + s.padding_bytes) (idv % 65536) lenv := by
        simp only [set_extension, hl16, hdst, hamt, hupd]
        rw [if_pos hbig, hg]
        simp
      have hsizes := set_extension_go_sizes
        { s with buffer := resizeList s.buffer (s.packet_size + (4 + 4 * lenv)) }
        (s.payload_offset + (4 + 4 * lenv))
        (s.payload_size + s.padding_bytes) (idv % 65536) lenv (by omega)
      refine ⟨?_, ?_, ?_, ?_⟩
      · rw [hfeq]; exact hsizes.1
      · rw [hfeq, hsizes.2.1]; omega
      · rw [hfeq, hsizes.2.2]
      · intro hi hbnd
        rw [hfeq]
        have hres : (resizeList s.buffer (s.packet_size + (4 + 4 * lenv))).length =
            s.packet_size + (4 + 4 * lenv) := resizeList_length _ _
        have hmove := set_extension_go_moves
          { s with buffer := resizeList s.buffer (s.packet_size + (4 + 4 * lenv)) }
          (s.payload_offset + (4 + 4 * lenv))
          (s.payload_size + s.padding_bytes) (idv % 65536) lenv i hi
          (by simp only []; omega) (by simp only [hres]; omega) (by simp only []; omega)
        rw [hmove]
        simp only []
        exact byteAt_resizeList_of_lt s.buffer hbnd (by omega)
  · intro hgF hsmall
    have hbig : add64 (s.payload_offset + (4 + 4 * lenv))
        (s.payload_size + s.padding_bytes) > s.buffer.length := by
      rw [hupd]; omega
    simp only [set_extension, hl16, hdst, hamt]
    rw [if_pos hbig, hgF]
    simp

end RtpCpp

namespace RtpCpp

/-- Claim C4 witness: on the default growable packet (no CSRCs, offsets both
12, size 12), `set_extension({id 3, len 1})` succeeds and grows the packet by
exactly `4 + 4·1` to 20. -/
theorem c4_amended_extension_delta_witness :
    (set_extension emptyGrowable (some ⟨3, 1⟩)).1 = Result.kSuccess ∧
    (set_extension emptyGrowable (some ⟨3, 1⟩)).2.packet_size =
      emptyGrowable.packet_size + (4 + 4 * 1) := by
  have h := (c4_amended_extension_delta emptyGrowable 3 1 0 (by decide) (by decide)
    (by decide) (by decide)).1 (Or.inl rfl)
  exact ⟨h.1, h.2.1⟩

end RtpCpp
